import Mathlib

/-!
Verification model of the SmartTEAM Live extension (src/live.js, first file,
the sandboxed variant: lines 1-470).

The extension is a WebSocket client with a reconnect/backoff state machine.
We embed its mutable fields as a structure, its commands and callbacks as
pure state transformers, and the asynchronous parts (the awaited permission
check, the retry timer, the four transport callbacks) as an explicit event
step relation on a system state that also records every WebSocket the code
ever constructs and every retry delay it ever schedules.

Numbers: the JS code only ever stores numbers obtained from JSON literals
or from ToNumber coercion of JSON values, all of which are decimal
rationals.  We model them exactly with the type Dec (mantissa over a power
of ten), plus the IEEE special values NaN, the two infinities and negative
zero as separate constructors of JsNum.  This idealizes binary floating
point as exact decimal arithmetic; every rounding claim below is about the
decimal value.
-/

/-- Exact decimal rational: value m / 10^e.  Kept canonical (e > 0 implies
m not divisible by 10) by constructing through mkDec only. -/
structure Dec where
  m : Int
  e : Nat
deriving DecidableEq, Repr

/-- 10^n as an Int. -/
def pow10 : Nat → Int
  | 0 => 1
  | n + 1 => 10 * pow10 n

/-- Canonicalizing constructor: strips common factors of 10. -/
def mkDec (m : Int) : Nat → Dec
  | 0 => ⟨m, 0⟩
  | e + 1 => if m % 10 = 0 then mkDec (m / 10) e else ⟨m, e + 1⟩

/-- The rational value of a decimal. -/
def dVal (d : Dec) : ℚ := (d.m : ℚ) / (pow10 d.e : ℚ)

def decZero : Dec := ⟨0, 0⟩

/-- JS number: NaN, the infinities, negative zero, or a finite nonzero-or-
positive-zero decimal (Dec with m = 0 is positive zero). -/
inductive JsNum where
  | nan
  | posInf
  | negInf
  | negZero
  | fin (d : Dec)
deriving DecidableEq, Repr

/-- Number.isFinite: true for finite values including both zeros. -/
def jsIsFinite : JsNum → Bool
  | .fin _ => true
  | .negZero => true
  | _ => false

/-- Rational value of a JS number (specification-level bridge; the
non-finite values are mapped to 0, they never reach the call sites that
use this). -/
def ratValue : JsNum → ℚ
  | .fin d => dVal d
  | _ => 0

/-- d * 100 (multiply a decimal by 100). -/
def decMul100 (d : Dec) : Dec :=
  if 2 ≤ d.e then mkDec d.m (d.e - 2)
  else ⟨d.m * pow10 (2 - d.e), 0⟩

/-- d / 100 (divide a decimal by 100). -/
def decDiv100 (d : Dec) : Dec := mkDec d.m (d.e + 2)

/-- floor (d + 1/2), computed on integers:
floor ((2m + 10^e) / (2 * 10^e)) via floor division. -/
def decRoundHalfUp (d : Dec) : Int :=
  Int.fdiv (2 * d.m + pow10 d.e) (2 * pow10 d.e)

/-- Math.round on JS numbers: round half toward positive infinity; results
in (-1/2 - epsilon, 0) round to -0; NaN, infinities and -0 are fixed. -/
def jsRound : JsNum → JsNum
  | .nan => .nan
  | .posInf => .posInf
  | .negInf => .negInf
  | .negZero => .negZero
  | .fin d =>
    let r := decRoundHalfUp d
    if r = 0 ∧ d.m < 0 then .negZero else .fin (mkDec r 0)

/-- n * 100 on JS numbers. -/
def jsMul100 : JsNum → JsNum
  | .nan => .nan
  | .posInf => .posInf
  | .negInf => .negInf
  | .negZero => .negZero
  | .fin d => .fin (decMul100 d)

/-- n / 100 on JS numbers. -/
def jsDiv100 : JsNum → JsNum
  | .nan => .nan
  | .posInf => .posInf
  | .negInf => .negInf
  | .negZero => .negZero
  | .fin d => .fin (decDiv100 d)

/-- round2 (live.js lines 146-149): Math.round(n * 100) / 100, with
Object.is(r, -0) normalized to 0. -/
def round2 (n : JsNum) : JsNum :=
  let r := jsDiv100 (jsRound (jsMul100 n))
  if r = JsNum.negZero then .fin decZero else r

/-- toFiniteNumber (live.js lines 138-141) applied to a value that is
already a number (Number(x) is the identity there): keep it if finite,
else the fallback. -/
def toFiniteNumberN (n fallback : JsNum) : JsNum :=
  if jsIsFinite n then n else fallback

/-! ## JSON values and JSON.parse -/

/-- A JSON value as produced by JSON.parse.  Numbers carry a JsNum so that
the literal -0 is represented faithfully (the grammar only ever produces
fin or negZero). -/
inductive Json where
  | null
  | bool (b : Bool)
  | num (n : JsNum)
  | str (s : String)
  | arr (elems : List Json)
  | obj (fields : List (String × Json))

/-- JSON whitespace (space, tab, line feed, carriage return). -/
def jsonWs (c : Char) : Bool :=
  c = ' ' ∨ c = '\t' ∨ c = '\n' ∨ c = '\r'

def dropWs (cs : List Char) : List Char := cs.dropWhile jsonWs

def digitVal (c : Char) : Nat := c.toNat - 48

def isHexDigit (c : Char) : Bool :=
  c.isDigit ∨ ('a' ≤ c ∧ c ≤ 'f') ∨ ('A' ≤ c ∧ c ≤ 'F')

def hexVal (c : Char) : Nat :=
  if c.isDigit then c.toNat - 48
  else if 'a' ≤ c ∧ c ≤ 'f' then c.toNat - 87
  else c.toNat - 55

def digitsToNat (cs : List Char) : Nat :=
  cs.foldl (fun acc c => 10 * acc + digitVal c) 0

def hexDigitsToNat (cs : List Char) : Nat :=
  cs.foldl (fun acc c => 16 * acc + hexVal c) 0

/-- Assemble a signed decimal literal
sign * (intPart.fracPart) * 10^exp into a JsNum (negative sign on a zero
value yields -0, as in IEEE). -/
def assembleDecimal (neg : Bool) (intDigits fracDigits : List Char)
    (exp : Int) : JsNum :=
  let mant : Int :=
    (digitsToNat intDigits : Int) * pow10 fracDigits.length +
      (digitsToNat fracDigits : Int)
  if mant = 0 ∧ neg then .negZero
  else
    let sm : Int := if neg then -mant else mant
    if 0 ≤ exp then .fin (mkDec (sm * pow10 exp.toNat) fracDigits.length)
    else .fin (mkDec sm (fracDigits.length + (-exp).toNat))

/-- Parse the optional exponent part of a number: [eE][+-]?digits.
Returns the signed exponent and the rest, or none when an exponent marker
is present but malformed. -/
def parseExponent (cs : List Char) : Option (Int × List Char) :=
  match cs with
  | c :: rest =>
    if c = 'e' ∨ c = 'E' then
      let (sgn, rest') : Bool × List Char :=
        match rest with
        | '+' :: r => (false, r)
        | '-' :: r => (true, r)
        | r => (false, r)
      let (ds, rest'') := rest'.span Char.isDigit
      if ds = [] then none
      else some ((if sgn then -(digitsToNat ds : Int) else (digitsToNat ds : Int)), rest'')
    else some (0, cs)
  | [] => some (0, cs)

/-- Parse a JSON number literal: -? (0 | [1-9][0-9]*) (. [0-9]+)?
([eE][+-]?[0-9]+)? .  Returns the value and the unconsumed rest. -/
def parseJsonNumber (cs : List Char) : Option (JsNum × List Char) :=
  let (neg, cs₁) : Bool × List Char :=
    match cs with
    | '-' :: r => (true, r)
    | r => (false, r)
  let (intDs, rest) := cs₁.span Char.isDigit
  if intDs = [] then none
  else if intDs.length > 1 ∧ intDs.headD '0' = '0' then none
  else
    let fracRes : Option (List Char × List Char) :=
      match rest with
      | '.' :: r =>
        let (ds, r') := r.span Char.isDigit
        if ds = [] then none else some (ds, r')
      | _ => some ([], rest)
    match fracRes with
    | none => none
    | some (fracDs, rest₂) =>
      match parseExponent rest₂ with
      | none => none
      | some (exp, rest₃) => some (assembleDecimal neg intDs fracDs exp, rest₃)

/-- Decode a \uXXXX escape: 4 hex digits.  Lone surrogates (which Lean
strings cannot carry, unlike JS strings) are mapped to U+FFFD; this is the
single divergence of the model from JSON.parse and no claim depends on it. -/
def hex4ToChar (a b c d : Char) : Char :=
  let n := ((hexVal a * 16 + hexVal b) * 16 + hexVal c) * 16 + hexVal d
  if 0xd800 ≤ n ∧ n ≤ 0xdfff then Char.ofNat 0xfffd else Char.ofNat n

/-- Parse the body of a JSON string after the opening quote.  Processes
escape sequences; rejects unescaped control characters; combines surrogate
pairs written as two \u escapes into one scalar. -/
def parseStrAux : Nat → List Char → List Char → Option (String × List Char)
  | 0, _, _ => none
  | _ + 1, acc, '"' :: rest => some (String.mk acc.reverse, rest)
  | fuel + 1, acc, '\\' :: esc :: rest =>
    if esc = '"' then parseStrAux fuel ('"' :: acc) rest
    else if esc = '\\' then parseStrAux fuel ('\\' :: acc) rest
    else if esc = '/' then parseStrAux fuel ('/' :: acc) rest
    else if esc = 'b' then parseStrAux fuel (Char.ofNat 8 :: acc) rest
    else if esc = 'f' then parseStrAux fuel (Char.ofNat 12 :: acc) rest
    else if esc = 'n' then parseStrAux fuel ('\n' :: acc) rest
    else if esc = 'r' then parseStrAux fuel ('\r' :: acc) rest
    else if esc = 't' then parseStrAux fuel ('\t' :: acc) rest
    else if esc = 'u' then
      match rest with
      | a :: b :: c :: d :: rest' =>
        if isHexDigit a ∧ isHexDigit b ∧ isHexDigit c ∧ isHexDigit d then
          let hi := ((hexVal a * 16 + hexVal b) * 16 + hexVal c) * 16 + hexVal d
          if 0xd800 ≤ hi ∧ hi ≤ 0xdbff then
            match rest' with
            | '\\' :: 'u' :: e :: f :: g :: h :: rest'' =>
              if isHexDigit e ∧ isHexDigit f ∧ isHexDigit g ∧ isHexDigit h then
                let lo := ((hexVal e * 16 + hexVal f) * 16 + hexVal g) * 16 + hexVal h
                if 0xdc00 ≤ lo ∧ lo ≤ 0xdfff then
                  let cp := 0x10000 + (hi - 0xd800) * 0x400 + (lo - 0xdc00)
                  parseStrAux fuel (Char.ofNat cp :: acc) rest''
                else parseStrAux fuel (Char.ofNat 0xfffd :: acc) rest'
              else parseStrAux fuel (Char.ofNat 0xfffd :: acc) rest'
            | _ => parseStrAux fuel (Char.ofNat 0xfffd :: acc) rest'
          else parseStrAux fuel (hex4ToChar a b c d :: acc) rest'
        else none
      | _ => none
    else none
  | fuel + 1, acc, c :: rest =>
    if c.toNat < 0x20 then none else parseStrAux fuel (c :: acc) rest
  | _ + 1, _, [] => none

def parseJsonString (cs : List Char) : Option (String × List Char) :=
  parseStrAux (cs.length + 1) [] cs

mutual

/-- Parse one JSON value (fuel-based recursion; the fuel passed at top
level is generous enough for any input of the given length). -/
def parseJsonVal : Nat → List Char → Option (Json × List Char)
  | 0, _ => none
  | fuel + 1, cs =>
    match dropWs cs with
    | [] => none
    | 'n' :: 'u' :: 'l' :: 'l' :: rest => some (.null, rest)
    | 't' :: 'r' :: 'u' :: 'e' :: rest => some (.bool true, rest)
    | 'f' :: 'a' :: 'l' :: 's' :: 'e' :: rest => some (.bool false, rest)
    | '"' :: rest =>
      match parseJsonString rest with
      | some (s, rest') => some (.str s, rest')
      | none => none
    | '[' :: rest =>
      match dropWs rest with
      | ']' :: rest' => some (.arr [], rest')
      | cs' =>
        match parseJsonElems fuel cs' with
        | some (vs, rest') => some (.arr vs, rest')
        | none => none
    | '{' :: rest =>
      match dropWs rest with
      | '}' :: rest' => some (.obj [], rest')
      | cs' =>
        match parseJsonMembers fuel cs' with
        | some (fs, rest') => some (.obj fs, rest')
        | none => none
    | cs' =>
      match parseJsonNumber cs' with
      | some (n, rest) => some (.num n, rest)
      | none => none

/-- Parse the comma-separated elements of a non-empty array, including the
closing bracket. -/
def parseJsonElems : Nat → List Char → Option (List Json × List Char)
  | 0, _ => none
  | fuel + 1, cs =>
    match parseJsonVal fuel cs with
    | none => none
    | some (v, rest) =>
      match dropWs rest with
      | ',' :: rest' =>
        match parseJsonElems fuel rest' with
        | some (vs, rest'') => some (v :: vs, rest'')
        | none => none
      | ']' :: rest' => some ([v], rest')
      | _ => none

/-- Parse the comma-separated members of a non-empty object, including the
closing brace. -/
def parseJsonMembers : Nat → List Char → Option (List (String × Json) × List Char)
  | 0, _ => none
  | fuel + 1, cs =>
    match dropWs cs with
    | '"' :: rest =>
      match parseJsonString rest with
      | none => none
      | some (k, rest') =>
        match dropWs rest' with
        | ':' :: rest'' =>
          match parseJsonVal fuel rest'' with
          | none => none
          | some (v, rest₃) =>
            match dropWs rest₃ with
            | ',' :: rest₄ =>
              match parseJsonMembers fuel rest₄ with
              | some (fs, rest₅) => some ((k, v) :: fs, rest₅)
              | none => none
            | '}' :: rest₄ => some ([(k, v)], rest₄)
            | _ => none
        | _ => none
    | _ => none

end

/-- safeJsonParse (live.js lines 127-133): JSON.parse returning null (here
none) on any parse failure.  The whole input must be consumed up to
trailing whitespace. -/
def safeJsonParse (s : String) : Option Json :=
  match parseJsonVal (2 * s.length + 4) s.data with
  | some (v, rest) => if dropWs rest = [] then some v else none
  | none => none

/-! ## ToNumber coercion (Number(x)) and toFiniteNumber -/

/-- JS whitespace accepted by Number(string) and String.prototype.trim
(ASCII whitespace, NBSP, line/paragraph separator, BOM; an approximation
of the full Unicode set, adequate for every string the claims mention). -/
def isJsSpace (c : Char) : Bool :=
  c = ' ' ∨ c = '\t' ∨ c = '\n' ∨ c = '\r' ∨ c.toNat = 11 ∨ c.toNat = 12 ∨
    c.toNat = 0xa0 ∨ c.toNat = 0x2028 ∨ c.toNat = 0x2029 ∨ c.toNat = 0xfeff

def jsTrim (cs : List Char) : List Char :=
  ((cs.dropWhile isJsSpace).reverse.dropWhile isJsSpace).reverse

def octDigitsToNat (cs : List Char) : Nat :=
  cs.foldl (fun acc c => 8 * acc + digitVal c) 0

def binDigitsToNat (cs : List Char) : Nat :=
  cs.foldl (fun acc c => 2 * acc + digitVal c) 0

/-- The unsigned decimal string-number grammar:
digits (. digits?)? exp?  |  . digits exp? — the entire input must be
consumed.  Returns integer digits, fraction digits and signed exponent. -/
def parseStrDecimal (cs : List Char) : Option (List Char × List Char × Int) :=
  let (intDs, rest) := cs.span Char.isDigit
  let fracRes : Option (List Char × List Char) :=
    match rest with
    | '.' :: r =>
      let (ds, r') := r.span Char.isDigit
      if intDs = [] ∧ ds = [] then none else some (ds, r')
    | _ => if intDs = [] then none else some ([], rest)
  match fracRes with
  | none => none
  | some (fracDs, rest₂) =>
    match parseExponent rest₂ with
    | none => none
    | some (exp, rest₃) => if rest₃ = [] then some (intDs, fracDs, exp) else none

/-- Number(string): trimmed empty string is +0; optional sign followed by
Infinity or a decimal literal; unsigned 0x/0o/0b integer literals;
everything else NaN.  A negative sign on a zero value yields -0. -/
def strToNumber (s : String) : JsNum :=
  let cs := jsTrim s.data
  match cs with
  | [] => .fin decZero
  | _ =>
    let signAndBody : Bool × Bool × List Char :=
      match cs with
      | '+' :: r => (false, true, r)
      | '-' :: r => (true, true, r)
      | r => (false, false, r)
    let neg := signAndBody.1
    let hasSign := signAndBody.2.1
    let body := signAndBody.2.2
    if body = "Infinity".data then (if neg then .negInf else .posInf)
    else
      let nonDec : Option JsNum :=
        if hasSign then none
        else
          match body with
          | '0' :: c :: ds =>
            if c = 'x' ∨ c = 'X' then
              some (if ds ≠ [] ∧ ds.all isHexDigit then
                .fin ⟨(hexDigitsToNat ds : Int), 0⟩ else .nan)
            else if c = 'o' ∨ c = 'O' then
              some (if ds ≠ [] ∧ ds.all (fun d => '0' ≤ d ∧ d ≤ '7') then
                .fin ⟨(octDigitsToNat ds : Int), 0⟩ else .nan)
            else if c = 'b' ∨ c = 'B' then
              some (if ds ≠ [] ∧ ds.all (fun d => d = '0' ∨ d = '1') then
                .fin ⟨(binDigitsToNat ds : Int), 0⟩ else .nan)
            else none
          | _ => none
      match nonDec with
      | some n => n
      | none =>
        match parseStrDecimal body with
        | some (intDs, fracDs, exp) => assembleDecimal neg intDs fracDs exp
        | none => .nan

/-- Number of the string form of a single array element (arrays convert
through Array.prototype.toString, the comma join): null and undefined
join as the empty string (+0), booleans as "true"/"false" (NaN), numbers
as their canonical string (which round-trips to the same value except
that -0 prints as "0"), strings as themselves, nested arrays as their own
join — so a nested empty array is +0, a nested singleton recurses, and
two or more elements always leave a comma in the string, hence NaN. -/
def jsToNumberSingle : Json → JsNum
  | .null => .fin decZero
  | .num .negZero => .fin decZero
  | .num n => n
  | .str s => strToNumber s
  | .bool _ => .nan
  | .obj _ => .nan
  | .arr [] => .fin decZero
  | .arr [x] => jsToNumberSingle x
  | .arr (_ :: _ :: _) => .nan

/-- Number(x) on a JSON value.  Objects convert through the string
"[object Object]" hence NaN; arrays through their comma join: empty array
is +0, two or more elements give NaN, a single element converts through
its own string form. -/
def jsToNumber : Json → JsNum
  | .null => .fin decZero
  | .bool b => if b then .fin ⟨1, 0⟩ else .fin decZero
  | .num n => n
  | .str s => strToNumber s
  | .obj _ => .nan
  | .arr [] => .fin decZero
  | .arr [x] => jsToNumberSingle x
  | .arr (_ :: _ :: _) => .nan

/-- Number(x) where x may be undefined (absent property). -/
def jsToNumberU : Option Json → JsNum
  | none => .nan
  | some j => jsToNumber j

/-- toFiniteNumber (live.js lines 138-141) on a JS value. -/
def toFiniteNumber (x : Option Json) (fallback : JsNum) : JsNum :=
  toFiniteNumberN (jsToNumberU x) fallback

/-! ## The message handler -/

/-- Property lookup on a parsed JSON value.  JSON.parse keeps the last of
duplicate keys; on arrays and primitives the properties read by the
handler (type, label, confidence, subscribers) are undefined. -/
def lookupField : List (String × Json) → String → Option Json
  | [], _ => none
  | (k, v) :: rest, key =>
    match lookupField rest key with
    | some r => some r
    | none => if k = key then some v else none

def getProp : Json → String → Option Json
  | .obj fs, key => lookupField fs key
  | _, _ => none

/-- JS falsiness of a JSON.parse result (the !msg guard). -/
def jsFalsy : Json → Bool
  | .null => true
  | .bool b => !b
  | .num .nan => true
  | .num .negZero => true
  | .num (.fin d) => d.m = 0
  | .num _ => false
  | .str s => s = ""
  | .arr _ => false
  | .obj _ => false

/-- typeof x === "object" for a JSON.parse result (true for null, arrays
and objects). -/
def jsTypeofIsObject : Json → Bool
  | .null => true
  | .arr _ => true
  | .obj _ => true
  | _ => false

/-! ## The extension state (the mutable fields of SmartteamLiveExtension) -/

def DEFAULT_WS_BASE : String :=
  "wss://smartteam-gesture-bridge.marianobat.workers.dev/ws"

/-- BACKOFF_MS (live.js line 80). -/
def BACKOFF_MS : List Nat := [1000, 2000, 3000, 5000]

/-- The instance fields of the extension class (underscores dropped).
ws holds the index of the current WebSocket in Sys.sockets;
reconnectTimer holds the delay of the single pending retry timeout. -/
structure ExtState where
  connected : Bool
  room : String
  wsBase : String
  gesture : String
  confidence : JsNum
  subscribers : JsNum
  defaultRoom : String
  ws : Option Nat
  shouldReconnect : Bool
  reconnectTimer : Option Nat
  backoffIndex : Nat
deriving DecidableEq, Repr

/-- Strict equality of a property with a string literal (msg.type ===
"gesture" and the like): true exactly when the property is that string. -/
def typeIs (msg : Json) (t : String) : Bool :=
  match getProp msg "type" with
  | some (.str u) => u == t
  | _ => false

/-- ws.onmessage (live.js lines 387-400). -/
def handleMessage (e : ExtState) (data : String) : ExtState :=
  match safeJsonParse data with
  | none => e
  | some msg =>
    if jsFalsy msg ∨ ¬ jsTypeofIsObject msg then e
    else if typeIs msg "gesture" then
      let label := match getProp msg "label" with
                   | some (.str l) => l
                   | _ => ""
      let conf := toFiniteNumber (getProp msg "confidence") (.fin decZero)
      { e with gesture := label, confidence := conf }
    else if typeIs msg "presence" then
      { e with subscribers := toFiniteNumber (getProp msg "subscribers") e.subscribers }
    else e

/-! ## Reporters -/

def getRoom (e : ExtState) : String := e.room

def isConnected (e : ExtState) : Bool := e.connected

/-- getGesture: this._gesture or the empty string when falsy. -/
def getGesture (e : ExtState) : String := if e.gesture = "" then "" else e.gesture

def getConfidence (e : ExtState) : JsNum :=
  round2 (toFiniteNumberN e.confidence (.fin decZero))

def getSubscribers (e : ExtState) : JsNum :=
  toFiniteNumberN e.subscribers (.fin decZero)

/-! ## The system: extension plus every socket, pending attempt and timer -/

inductive SockStatus where
  | connecting
  | opened
  | closed
deriving DecidableEq, Repr

/-- One WebSocket the code constructed.  attached records whether the four
handlers are still installed (closeWs detaches them). -/
structure Sock where
  url : String
  status : SockStatus
  attached : Bool
deriving DecidableEq, Repr

/-- An _openWsAsync invocation suspended at await Scratch.canFetch(wsUrl).
The url was computed before the await and is fixed. -/
structure Attempt where
  url : String
deriving DecidableEq, Repr

/-- Whole-system state: the extension instance plus the sockets ever
created, the in-flight permission checks, and a log of every retry delay
ever scheduled. -/
structure Sys where
  ext : ExtState
  pending : List Attempt
  sockets : List Sock
  delayLog : List Nat
deriving DecidableEq, Repr

def updateAt {α : Type} (f : α → α) : Nat → List α → List α
  | _, [] => []
  | 0, x :: xs => f x :: xs
  | i + 1, x :: xs => x :: updateAt f i xs

/-- _buildWsUrl (live.js lines 326-331): the base with its room query
parameter set.  Percent-encoding and parameter overwriting are elided:
every base the model reaches is the default query-less wss base, and no
claim inspects the address string.  With a well-formed base this never
throws, so the catch branches of lines 348-359 are unreachable. -/
def buildWsUrl (base room : String) : String :=
  base ++ (if base.data.contains '?' then "&" else "?") ++ "room=" ++ room

/-- _closeWs (live.js lines 418-433): take the handle, null it, then
detach all four handlers and request a graceful close (code 1000; the
reason string is not observable and is not recorded). -/
def closeWs (s : Sys) : Sys :=
  match s.ext.ws with
  | none => s
  | some i =>
    { s with
      ext := { s.ext with ws := none },
      sockets := updateAt (fun k => { k with attached := false, status := .closed }) i s.sockets }

def clearReconnectTimer (s : Sys) : Sys :=
  { s with ext := { s.ext with reconnectTimer := none } }

/-- _scheduleReconnect (live.js lines 435-455): no-op when intent is
false, the room is empty, or a timer is already pending; otherwise
schedule a timeout with the table delay at the clamped index and bump the
index, saturating at the last entry.  The scheduled delay is appended to
the log. -/
def scheduleReconnect (s : Sys) : Sys :=
  if ¬ s.ext.shouldReconnect then s
  else if s.ext.room = "" then s
  else if s.ext.reconnectTimer.isSome then s
  else
    let idx := min s.ext.backoffIndex (BACKOFF_MS.length - 1)
    let delay := BACKOFF_MS.getD idx 0
    { s with
      ext := { s.ext with
        backoffIndex := min (s.ext.backoffIndex + 1) (BACKOFF_MS.length - 1),
        reconnectTimer := some delay },
      delayLog := s.delayLog ++ [delay] }

/-- The synchronous prefix of _openWsAsync (live.js lines 337-364): the
guards on room and intent, the url construction, and the call to
Scratch.canFetch whose promise is then awaited — the invocation becomes a
pending Attempt.  Everything after the await is finishOpen. -/
def openWsStart (s : Sys) : Sys :=
  if s.ext.room = "" then { s with ext := { s.ext with connected := false } }
  else if ¬ s.ext.shouldReconnect then { s with ext := { s.ext with connected := false } }
  else { s with pending := s.pending ++ [⟨buildWsUrl s.ext.wsBase s.ext.room⟩] }

/-- Outcome of the awaited permission check: resolved true, resolved
false, or rejected. -/
inductive PermRes where
  | granted
  | denied
  | failed
deriving DecidableEq, Repr

/-- The continuation of _openWsAsync after the await (live.js lines
364-416).  Note: it re-checks nothing — on a grant it constructs the
WebSocket and installs it unconditionally.  The WebSocket constructor
cannot throw here (the url is well-formed), so the catch of lines 411-415
is unreachable. -/
def finishOpen (s : Sys) (url : String) (res : PermRes) : Sys :=
  match res with
  | .failed => scheduleReconnect { s with ext := { s.ext with connected := false } }
  | .denied => scheduleReconnect { s with ext := { s.ext with connected := false } }
  | .granted =>
    { s with
      sockets := s.sockets ++ [⟨url, .connecting, true⟩],
      ext := { s.ext with ws := some s.sockets.length } }

/-- setRoomInternal (live.js lines 292-324). -/
def setRoomInternal (s : Sys) (room : String) (auto : Bool) : Sys :=
  if room = "" then
    let s₁ := { s with ext := { s.ext with room := "", connected := false } }
    if ¬ auto then
      closeWs (clearReconnectTimer
        { s₁ with ext := { s₁.ext with shouldReconnect := false } })
    else s₁
  else
    let s₁ := { s with ext := { s.ext with defaultRoom := room } }
    if room = s₁.ext.room ∧ s₁.ext.ws.isSome then s₁
    else
      let s₂ := { s₁ with ext := { s₁.ext with
        room := room, gesture := "", confidence := .fin decZero,
        subscribers := .fin decZero, backoffIndex := 0,
        shouldReconnect := true, reconnectTimer := none } }
      openWsStart (closeWs s₂)

/-- normalizeRoom (live.js lines 120-122): String(room or "").trim(). -/
def normalizeRoom (s : String) : String := String.mk (jsTrim s.data)

/-- The setRoom command (live.js lines 266-269). -/
def cmdSetRoom (s : Sys) (raw : String) : Sys :=
  setRoomInternal s (normalizeRoom raw) false

/-- The reconnect command (live.js lines 271-281). -/
def cmdReconnect (s : Sys) : Sys :=
  if s.ext.room = "" then { s with ext := { s.ext with connected := false } }
  else
    openWsStart (closeWs (clearReconnectTimer
      { s with ext := { s.ext with backoffIndex := 0, shouldReconnect := true } }))

/-- The disconnect command (live.js lines 283-288). -/
def cmdDisconnect (s : Sys) : Sys :=
  let s₁ := closeWs (clearReconnectTimer
    { s with ext := { s.ext with shouldReconnect := false } })
  { s₁ with ext := { s₁.ext with connected := false } }

/-! ## Events and the step function -/

/-- The events of the single-threaded event loop: the three commands, the
resumption of an awaited permission check, the retry timeout firing, and
the four transport callbacks on a given socket. -/
inductive Ev where
  | setRoom (raw : String)
  | reconnect
  | disconnect
  | resolvePerm (i : Nat) (res : PermRes)
  | fireTimer
  | wsOpen (i : Nat)
  | wsMessage (i : Nat) (data : String)
  | wsError (i : Nat)
  | wsClose (i : Nat)

/-- One event, run to completion (the cooperative scheduling model: each
callback or command runs atomically).  A transport callback only runs its
handler body when the handlers are still attached; the socket status still
transitions.  The timer callback (live.js lines 448-454) nulls the handle,
then re-checks live socket, intent and room before re-opening. -/
def step (s : Sys) : Ev → Sys
  | .setRoom raw => cmdSetRoom s raw
  | .reconnect => cmdReconnect s
  | .disconnect => cmdDisconnect s
  | .resolvePerm i res =>
    match s.pending.get? i with
    | none => s
    | some att => finishOpen { s with pending := s.pending.eraseIdx i } att.url res
  | .fireTimer =>
    match s.ext.reconnectTimer with
    | none => s
    | some _ =>
      let s₁ := { s with ext := { s.ext with reconnectTimer := none } }
      if s₁.ext.ws.isSome then s₁
      else if ¬ s₁.ext.shouldReconnect then s₁
      else if s₁.ext.room = "" then s₁
      else openWsStart s₁
  | .wsOpen i =>
    match s.sockets.get? i with
    | none => s
    | some k =>
      if k.status = .connecting then
        let s₁ := { s with
          sockets := updateAt (fun x => { x with status := .opened }) i s.sockets }
        if k.attached then
          { s₁ with ext := { s₁.ext with connected := true, backoffIndex := 0 } }
        else s₁
      else s
  | .wsMessage i data =>
    match s.sockets.get? i with
    | none => s
    | some k =>
      if k.status = .opened ∧ k.attached then
        { s with ext := handleMessage s.ext data }
      else s
  | .wsError i =>
    match s.sockets.get? i with
    | none => s
    | some k =>
      if k.status ≠ .closed ∧ k.attached then
        { s with ext := { s.ext with connected := false } }
      else s
  | .wsClose i =>
    match s.sockets.get? i with
    | none => s
    | some k =>
      if k.status ≠ .closed then
        let s₁ := { s with
          sockets := updateAt (fun x => { x with status := .closed }) i s.sockets }
        if k.attached then
          scheduleReconnect { s₁ with ext := { s₁.ext with connected := false, ws := none } }
        else s₁
      else s

/-- The state after the constructor (live.js lines 152-183) in the
environment the claims assume: no room parameter in the script url, so no
auto-connect. -/
def initExt : ExtState :=
  { connected := false, room := "", wsBase := DEFAULT_WS_BASE, gesture := ""
    confidence := .fin decZero, subscribers := .fin decZero, defaultRoom := ""
    ws := none, shouldReconnect := false, reconnectTimer := none, backoffIndex := 0 }

def initSys : Sys := { ext := initExt, pending := [], sockets := [], delayLog := [] }

def runEvents (evs : List Ev) : Sys := evs.foldl step initSys

/-- Number of sockets currently neither closed by the code nor closed by
the transport. -/
def liveSockets (s : Sys) : Nat :=
  (s.sockets.filter (fun k => k.status ≠ SockStatus.closed)).length

/-- Number of sockets that have completed their handshake and not closed. -/
def openSockets (s : Sys) : Nat :=
  (s.sockets.filter (fun k => k.status = SockStatus.opened)).length

/-! ## Helper lemmas -/

theorem updateAt_getElem?_self {α : Type} (f : α → α) :
    ∀ (i : Nat) (l : List α), (updateAt f i l)[i]? = l[i]?.map f := by
  intro i
  induction i with
  | zero => intro l; cases l <;> simp [updateAt]
  | succ n ih =>
    intro l
    cases l with
    | nil => simp [updateAt]
    | cons x xs => simpa [updateAt] using ih xs

theorem updateAt_getElem?_other {α : Type} (f : α → α) :
    ∀ (i j : Nat) (l : List α), j ≠ i → (updateAt f i l)[j]? = l[j]? := by
  intro i
  induction i with
  | zero =>
    intro j l hj
    cases l with
    | nil => simp [updateAt]
    | cons x xs => cases j with
      | zero => exact absurd rfl hj
      | succ m => simp [updateAt]
  | succ n ih =>
    intro j l hj
    cases l with
    | nil => simp [updateAt]
    | cons x xs => cases j with
      | zero => simp [updateAt]
      | succ m => simpa [updateAt] using ih m xs (fun h => hj (by omega))

/-! ## Claim theorems -/

/-- C1.  The claim says that after disconnect() no new transport is ever
opened until setRoom or reconnect, because an in-flight permission check
re-checks the intent flag before opening.  The code has no such re-check
after the await: in the trace below, setRoom starts a permission check,
disconnect() then runs to completion (intent cleared, no socket exists),
and when the stale check resolves true the continuation constructs a
WebSocket, installs it as the live transport and, once the handshake
completes, marks the session connected — all without any intervening
setRoom or reconnect. -/
theorem c1_stale_check_opens_transport_after_disconnect :
    (runEvents [.setRoom "ST-1", .disconnect]).ext.shouldReconnect = false
    ∧ (runEvents [.setRoom "ST-1", .disconnect]).sockets = []
    ∧ (runEvents [.setRoom "ST-1", .disconnect]).ext.connected = false
    ∧ (runEvents [.setRoom "ST-1", .disconnect, .resolvePerm 0 .granted]).sockets.length = 1
    ∧ (runEvents [.setRoom "ST-1", .disconnect, .resolvePerm 0 .granted]).ext.ws = some 0
    ∧ (runEvents [.setRoom "ST-1", .disconnect, .resolvePerm 0 .granted,
        .wsOpen 0]).ext.connected = true := by
  decide

/-- C2.  The claim says at most one live transport exists at any instant
across any interleaving.  Two in-flight permission checks (here from a
setRoom and an immediately following reconnect) each construct a WebSocket
when they resolve; the first socket is never closed by anyone, so after
both handshakes two sockets are open at once. -/
theorem c2_two_live_transports :
    liveSockets (runEvents [.setRoom "ST-1", .reconnect,
      .resolvePerm 0 .granted, .resolvePerm 0 .granted]) = 2
    ∧ openSockets (runEvents [.setRoom "ST-1", .reconnect,
      .resolvePerm 0 .granted, .resolvePerm 0 .granted, .wsOpen 0, .wsOpen 1]) = 2
    ∧ (runEvents [.setRoom "ST-1", .reconnect,
      .resolvePerm 0 .granted, .resolvePerm 0 .granted, .wsOpen 0, .wsOpen 1]).ext.ws = some 1 := by
  decide

/-- C5: calling setRoom with the (normalized) value the room already
holds while a transport is live is a no-op: the whole system state is
unchanged — no teardown, no new open attempt, no FactSet reset.  The
hypothesis on defaultRoom holds in every reachable state with a nonempty
room (the assignment at line 306 runs before the no-op check at line 309
and writes the value the field already has). -/
theorem c5_same_room_live_noop (s : Sys) (raw : String) (i : Nat)
    (h1 : normalizeRoom raw = s.ext.room) (h2 : s.ext.room ≠ "")
    (h3 : s.ext.ws = some i) (h4 : s.ext.defaultRoom = s.ext.room) :
    cmdSetRoom s raw = s := by
  obtain ⟨⟨c, room, base, g, cf, sub, dr, ws, sr, rt, bi⟩, pending, sockets, log⟩ := s
  simp only [cmdSetRoom, setRoomInternal] at *
  subst h1 h4 h3
  simp [h2]

/-- C5 witness: a live connected session on room ST-1; repeating
setRoom("ST-1") leaves the state identical. -/
theorem c5_same_room_live_noop_witness :
    cmdSetRoom (runEvents [.setRoom "ST-1", .resolvePerm 0 .granted, .wsOpen 0]) "ST-1"
      = runEvents [.setRoom "ST-1", .resolvePerm 0 .granted, .wsOpen 0] :=
  c5_same_room_live_noop _ "ST-1" 0 (by decide) (by decide) (by decide) (by decide)

/-- C4 counterexample.  The claim says that immediately after an effective
setRoom (non-empty room different from the current one) the FactSet shows
connected = false until a new open completes.  In the trace below the
session is connected to ST-A; setRoom("ST-B") is such a call, yet right
after it returns connected is still true (setRoomInternal never clears
the connected flag on the room-change path). -/
theorem c4_counterexample :
    (runEvents [.setRoom "ST-A", .resolvePerm 0 .granted, .wsOpen 0]).ext.room = "ST-A"
    ∧ normalizeRoom "ST-B" = "ST-B"
    ∧ ("ST-B" : String) ≠ "ST-A"
    ∧ (runEvents [.setRoom "ST-A", .resolvePerm 0 .granted, .wsOpen 0]).ext.connected = true
    ∧ (runEvents [.setRoom "ST-A", .resolvePerm 0 .granted, .wsOpen 0,
        .setRoom "ST-B"]).ext.connected = true := by
  decide

/-- C4 amended: after every setRoom call with a non-empty room different
from the current room, and before any transport activity, the label is
the empty string, confidence is 0 and subscriberCount is 0, the room is
the new value — but the connected flag is left exactly as it was (it only
becomes false through a later transport event or failure path). -/
theorem c4_amended_facts_reset (s : Sys) (raw : String)
    (h1 : normalizeRoom raw ≠ "") (h2 : normalizeRoom raw ≠ s.ext.room) :
    (cmdSetRoom s raw).ext.gesture = ""
    ∧ (cmdSetRoom s raw).ext.confidence = .fin decZero
    ∧ (cmdSetRoom s raw).ext.subscribers = .fin decZero
    ∧ (cmdSetRoom s raw).ext.room = normalizeRoom raw
    ∧ (cmdSetRoom s raw).ext.backoffIndex = 0
    ∧ (cmdSetRoom s raw).ext.shouldReconnect = true
    ∧ (cmdSetRoom s raw).ext.connected = s.ext.connected := by
  obtain ⟨⟨c, room, base, g, cf, sub, dr, ws, sr, rt, bi⟩, pending, sockets, log⟩ := s
  simp only [cmdSetRoom, setRoomInternal] at h2 ⊢
  rw [if_neg h1, if_neg (fun hc => h2 hc.1)]
  cases ws <;> simp [closeWs, openWsStart, h1]

/-- C4 witness: the amended theorem applied to the connected ST-A session
and the call setRoom("ST-B"). -/
theorem c4_amended_facts_reset_witness :
    (cmdSetRoom (runEvents [.setRoom "ST-A", .resolvePerm 0 .granted, .wsOpen 0]) "ST-B").ext.gesture = ""
    ∧ (cmdSetRoom (runEvents [.setRoom "ST-A", .resolvePerm 0 .granted, .wsOpen 0]) "ST-B").ext.confidence = .fin decZero
    ∧ (cmdSetRoom (runEvents [.setRoom "ST-A", .resolvePerm 0 .granted, .wsOpen 0]) "ST-B").ext.subscribers = .fin decZero
    ∧ (cmdSetRoom (runEvents [.setRoom "ST-A", .resolvePerm 0 .granted, .wsOpen 0]) "ST-B").ext.room = normalizeRoom "ST-B"
    ∧ (cmdSetRoom (runEvents [.setRoom "ST-A", .resolvePerm 0 .granted, .wsOpen 0]) "ST-B").ext.backoffIndex = 0
    ∧ (cmdSetRoom (runEvents [.setRoom "ST-A", .resolvePerm 0 .granted, .wsOpen 0]) "ST-B").ext.shouldReconnect = true
    ∧ (cmdSetRoom (runEvents [.setRoom "ST-A", .resolvePerm 0 .granted, .wsOpen 0]) "ST-B").ext.connected
        = (runEvents [.setRoom "ST-A", .resolvePerm 0 .granted, .wsOpen 0]).ext.connected :=
  c4_amended_facts_reset _ "ST-B" (by decide) (by decide)

/-- C10 counterexample.  The claim says that setRoom with the unchanged
room while no transport handle is live resets the FactSet to its defaults
— whose connected default is false.  In the trace below the session was
connected to ST-A, switched to ST-B (handle cleared, connected left true
by the room-change path), and then setRoom("ST-B") is repeated with no
live handle: after the call connected is still true, not false. -/
theorem c10_counterexample :
    (runEvents [.setRoom "ST-A", .resolvePerm 0 .granted, .wsOpen 0,
        .setRoom "ST-B"]).ext.room = "ST-B"
    ∧ (runEvents [.setRoom "ST-A", .resolvePerm 0 .granted, .wsOpen 0,
        .setRoom "ST-B"]).ext.ws = none
    ∧ (runEvents [.setRoom "ST-A", .resolvePerm 0 .granted, .wsOpen 0,
        .setRoom "ST-B"]).ext.connected = true
    ∧ (runEvents [.setRoom "ST-A", .resolvePerm 0 .granted, .wsOpen 0,
        .setRoom "ST-B", .setRoom "ST-B"]).ext.connected = true := by
  decide

/-- C10 amended: for every state with a non-empty room and no live
transport handle, setRoom with the same room value is not a no-op: it
resets label, confidence and subscriberCount to their defaults (connected
is left as it was), resets the backoff index to 0, sets the intent flag,
cancels any pending retry, closes nothing (no handle is live, so the
socket list is untouched), and immediately starts a new open attempt,
suspended at the permission check. -/
theorem c10_same_room_no_handle_restarts (s : Sys) (raw : String)
    (h1 : normalizeRoom raw ≠ "") (h2 : normalizeRoom raw = s.ext.room)
    (h3 : s.ext.ws = none) :
    (cmdSetRoom s raw).ext.gesture = ""
    ∧ (cmdSetRoom s raw).ext.confidence = .fin decZero
    ∧ (cmdSetRoom s raw).ext.subscribers = .fin decZero
    ∧ (cmdSetRoom s raw).ext.backoffIndex = 0
    ∧ (cmdSetRoom s raw).ext.shouldReconnect = true
    ∧ (cmdSetRoom s raw).ext.reconnectTimer = none
    ∧ (cmdSetRoom s raw).ext.connected = s.ext.connected
    ∧ (cmdSetRoom s raw).sockets = s.sockets
    ∧ (cmdSetRoom s raw).pending
        = s.pending ++ [⟨buildWsUrl s.ext.wsBase (normalizeRoom raw)⟩] := by
  obtain ⟨⟨c, room, base, g, cf, sub, dr, ws, sr, rt, bi⟩, pending, sockets, log⟩ := s
  simp only [cmdSetRoom, setRoomInternal] at h2 h3 ⊢
  subst h3
  rw [if_neg h1, if_neg (by simp)]
  simp [closeWs, openWsStart, h1]

/-- C10 witness: the amended theorem applied to the ST-B session that is
waiting on its permission check (no live handle). -/
theorem c10_same_room_no_handle_restarts_witness :
    (cmdSetRoom (runEvents [.setRoom "ST-A", .resolvePerm 0 .granted, .wsOpen 0, .setRoom "ST-B"]) "ST-B").ext.gesture = ""
    ∧ (cmdSetRoom (runEvents [.setRoom "ST-A", .resolvePerm 0 .granted, .wsOpen 0, .setRoom "ST-B"]) "ST-B").ext.confidence = .fin decZero
    ∧ (cmdSetRoom (runEvents [.setRoom "ST-A", .resolvePerm 0 .granted, .wsOpen 0, .setRoom "ST-B"]) "ST-B").ext.subscribers = .fin decZero
    ∧ (cmdSetRoom (runEvents [.setRoom "ST-A", .resolvePerm 0 .granted, .wsOpen 0, .setRoom "ST-B"]) "ST-B").ext.backoffIndex = 0
    ∧ (cmdSetRoom (runEvents [.setRoom "ST-A", .resolvePerm 0 .granted, .wsOpen 0, .setRoom "ST-B"]) "ST-B").ext.shouldReconnect = true
    ∧ (cmdSetRoom (runEvents [.setRoom "ST-A", .resolvePerm 0 .granted, .wsOpen 0, .setRoom "ST-B"]) "ST-B").ext.reconnectTimer = none
    ∧ (cmdSetRoom (runEvents [.setRoom "ST-A", .resolvePerm 0 .granted, .wsOpen 0, .setRoom "ST-B"]) "ST-B").ext.connected
        = (runEvents [.setRoom "ST-A", .resolvePerm 0 .granted, .wsOpen 0, .setRoom "ST-B"]).ext.connected
    ∧ (cmdSetRoom (runEvents [.setRoom "ST-A", .resolvePerm 0 .granted, .wsOpen 0, .setRoom "ST-B"]) "ST-B").sockets
        = (runEvents [.setRoom "ST-A", .resolvePerm 0 .granted, .wsOpen 0, .setRoom "ST-B"]).sockets
    ∧ (cmdSetRoom (runEvents [.setRoom "ST-A", .resolvePerm 0 .granted, .wsOpen 0, .setRoom "ST-B"]) "ST-B").pending
        = (runEvents [.setRoom "ST-A", .resolvePerm 0 .granted, .wsOpen 0, .setRoom "ST-B"]).pending
          ++ [⟨buildWsUrl (runEvents [.setRoom "ST-A", .resolvePerm 0 .granted, .wsOpen 0, .setRoom "ST-B"]).ext.wsBase (normalizeRoom "ST-B")⟩] :=
  c10_same_room_no_handle_restarts _ "ST-B" (by decide) (by decide) (by decide)

/-- C8: setRoom with a value that normalizes to the empty string clears
the room, shows connected = false, cancels the reconnection intent,
cancels any pending retry, detaches and closes the live transport if one
exists (all other sockets untouched), starts no open attempt, and leaves
label, confidence and subscriberCount unchanged. -/
theorem c8_clear_room (s : Sys) (raw : String) (h : normalizeRoom raw = "") :
    (cmdSetRoom s raw).ext.room = ""
    ∧ (cmdSetRoom s raw).ext.connected = false
    ∧ (cmdSetRoom s raw).ext.shouldReconnect = false
    ∧ (cmdSetRoom s raw).ext.reconnectTimer = none
    ∧ (cmdSetRoom s raw).ext.ws = none
    ∧ (cmdSetRoom s raw).ext.gesture = s.ext.gesture
    ∧ (cmdSetRoom s raw).ext.confidence = s.ext.confidence
    ∧ (cmdSetRoom s raw).ext.subscribers = s.ext.subscribers
    ∧ (cmdSetRoom s raw).pending = s.pending
    ∧ (∀ i, s.ext.ws = some i →
        (cmdSetRoom s raw).sockets[i]?
          = s.sockets[i]?.map (fun k => { k with attached := false, status := .closed })
        ∧ ∀ j, j ≠ i → (cmdSetRoom s raw).sockets[j]? = s.sockets[j]?)
    ∧ (s.ext.ws = none → (cmdSetRoom s raw).sockets = s.sockets) := by
  obtain ⟨⟨c, room, base, g, cf, sub, dr, ws, sr, rt, bi⟩, pending, sockets, log⟩ := s
  simp only [cmdSetRoom, setRoomInternal] at h ⊢
  rw [h]
  cases ws with
  | none => simp [closeWs, clearReconnectTimer]
  | some i =>
    refine ⟨rfl, rfl, rfl, rfl, rfl, rfl, rfl, rfl, rfl, ?_, ?_⟩
    · rintro i' hi'
      obtain rfl : i = i' := by simpa using hi'
      exact ⟨by simp [closeWs, clearReconnectTimer, updateAt_getElem?_self],
             fun j hj => by simp [closeWs, clearReconnectTimer, updateAt_getElem?_other _ _ _ _ hj]⟩
    · intro hn; exact absurd hn (by simp)

/-- C8 witness: clearing the room of a session whose permission check was
granted (live handle on socket 0) with the blank string "  ". -/
theorem c8_clear_room_witness :
    normalizeRoom "  " = ""
    ∧ (cmdSetRoom (runEvents [.setRoom "ST-1", .resolvePerm 0 .granted]) "  ").ext.room = ""
    ∧ (cmdSetRoom (runEvents [.setRoom "ST-1", .resolvePerm 0 .granted]) "  ").ext.connected = false
    ∧ (cmdSetRoom (runEvents [.setRoom "ST-1", .resolvePerm 0 .granted]) "  ").ext.shouldReconnect = false
    ∧ (cmdSetRoom (runEvents [.setRoom "ST-1", .resolvePerm 0 .granted]) "  ").ext.reconnectTimer = none
    ∧ (cmdSetRoom (runEvents [.setRoom "ST-1", .resolvePerm 0 .granted]) "  ").ext.ws = none
    ∧ (cmdSetRoom (runEvents [.setRoom "ST-1", .resolvePerm 0 .granted]) "  ").ext.subscribers
        = (runEvents [.setRoom "ST-1", .resolvePerm 0 .granted]).ext.subscribers
    ∧ (cmdSetRoom (runEvents [.setRoom "ST-1", .resolvePerm 0 .granted]) "  ").sockets[0]?
        = (runEvents [.setRoom "ST-1", .resolvePerm 0 .granted]).sockets[0]?.map
            (fun k => { k with attached := false, status := .closed }) := by
  refine ⟨by decide, ?_, ?_, ?_, ?_, ?_, ?_, ?_⟩
  · exact (c8_clear_room _ "  " (by decide)).1
  · exact (c8_clear_room _ "  " (by decide)).2.1
  · exact (c8_clear_room _ "  " (by decide)).2.2.1
  · exact (c8_clear_room _ "  " (by decide)).2.2.2.1
  · exact (c8_clear_room _ "  " (by decide)).2.2.2.2.1
  · exact (c8_clear_room _ "  " (by decide)).2.2.2.2.2.2.2.1
  · exact ((c8_clear_room _ "  " (by decide)).2.2.2.2.2.2.2.2.2.1 0 (by decide)).1

theorem typeIs_true_iff (msg : Json) (t : String) :
    typeIs msg t = true ↔ getProp msg "type" = some (.str t) := by
  unfold typeIs
  cases h : getProp msg "type" with
  | none => simp
  | some v => cases v <;> simp [beq_iff_eq]

/-- C6: a frame whose payload fails JSON decode, or decodes to a JS
non-object (the !msg and typeof guards), or carries a type that is
neither "gesture" nor "presence", changes no state; no error can surface
because the handler is a total function of the state.  The last conjunct
is the concrete scenario: presence with subscribers 3, then the malformed
frame "not json" — the subscriber count reporter still answers 3. -/
theorem c6_malformed_frames_ignored :
    (∀ (e : ExtState) (data : String), safeJsonParse data = none →
      handleMessage e data = e)
    ∧ (∀ (e : ExtState) (data : String) (msg : Json), safeJsonParse data = some msg →
        (jsFalsy msg = true ∨ jsTypeofIsObject msg = false) →
        handleMessage e data = e)
    ∧ (∀ (e : ExtState) (data : String) (msg : Json), safeJsonParse data = some msg →
        typeIs msg "gesture" = false → typeIs msg "presence" = false →
        handleMessage e data = e)
    ∧ getSubscribers (runEvents [.setRoom "ST-1", .resolvePerm 0 .granted, .wsOpen 0,
        .wsMessage 0 "\x7b\"type\":\"presence\",\"subscribers\":3\x7d",
        .wsMessage 0 "not json"]).ext = .fin ⟨3, 0⟩ := by
  refine ⟨?_, ?_, ?_, by decide⟩
  · intro e data h
    simp [handleMessage, h]
  · intro e data msg h hor
    cases hor with
    | inl h1 => simp [handleMessage, h, h1]
    | inr h1 => simp [handleMessage, h, h1]
  · intro e data msg h h1 h2
    simp only [handleMessage, h]
    split
    · rfl
    · simp [h1, h2]

/-- C6 witness: the three universal conjuncts applied to the frames
"not json" (decode failure), "3" (decodes to a number, a non-object) and
an object of unrecognized type. -/
theorem c6_malformed_frames_ignored_witness :
    handleMessage initExt "not json" = initExt
    ∧ handleMessage initExt "3" = initExt
    ∧ handleMessage initExt "\x7b\"type\":\"hello\"\x7d" = initExt :=
  ⟨c6_malformed_frames_ignored.1 initExt "not json" (by rfl),
   c6_malformed_frames_ignored.2.1 initExt "3" (.num (.fin ⟨3, 0⟩)) (by rfl)
     (Or.inr (by rfl)),
   c6_malformed_frames_ignored.2.2.1 initExt "\x7b\"type\":\"hello\"\x7d"
     (.obj [("type", .str "hello")]) (by rfl) (by rfl) (by rfl)⟩

/-- C7: on a decoded frame that passes the object guard, kind "gesture"
overwrites the label with the frame label when it is a string and with ""
otherwise, and overwrites confidence with the frame confidence coerced by
Number(), kept only when finite and defaulted to 0 otherwise; kind
"presence" overwrites subscriberCount with the coerced subscribers value,
keeping the current value when the coercion is not finite.  The structure
update form also shows every other field is untouched. -/
theorem c7_recognized_frame_updates (e : ExtState) (data : String) (msg : Json)
    (hp : safeJsonParse data = some msg)
    (hf : jsFalsy msg = false) (ho : jsTypeofIsObject msg = true) :
    (typeIs msg "gesture" = true →
      handleMessage e data = { e with
        gesture := (match getProp msg "label" with
                    | some (.str l) => l
                    | _ => ""),
        confidence := (if jsIsFinite (jsToNumberU (getProp msg "confidence")) = true
            then jsToNumberU (getProp msg "confidence") else .fin decZero) })
    ∧ (typeIs msg "presence" = true →
      handleMessage e data = { e with
        subscribers := (if jsIsFinite (jsToNumberU (getProp msg "subscribers")) = true
            then jsToNumberU (getProp msg "subscribers") else e.subscribers) }) := by
  constructor
  · intro ht
    simp [handleMessage, hp, hf, ho, ht, toFiniteNumber, toFiniteNumberN]
  · intro ht
    have hty : getProp msg "type" = some (.str "presence") := (typeIs_true_iff msg _).mp ht
    have hg : typeIs msg "gesture" = false := by
      unfold typeIs
      rw [hty]
      rfl
    simp [handleMessage, hp, hf, ho, ht, hg, toFiniteNumber, toFiniteNumberN]

/-- C7 witness: a gesture frame with label "wave" and confidence 0.87,
and a presence frame whose subscribers value "x" coerces to NaN so that
the previous count 3 is kept. -/
theorem c7_recognized_frame_updates_witness :
    handleMessage initExt "\x7b\"type\":\"gesture\",\"label\":\"wave\",\"confidence\":0.87\x7d"
      = { initExt with gesture := "wave", confidence := .fin ⟨87, 2⟩ }
    ∧ handleMessage { initExt with subscribers := .fin ⟨3, 0⟩ }
        "\x7b\"type\":\"presence\",\"subscribers\":\"x\"\x7d"
      = { initExt with subscribers := .fin ⟨3, 0⟩ } :=
  ⟨(c7_recognized_frame_updates initExt _
      (.obj [("type", .str "gesture"), ("label", .str "wave"),
             ("confidence", .num (.fin ⟨87, 2⟩))])
      (by rfl) (by rfl) (by rfl)).1 (by rfl),
   (c7_recognized_frame_updates { initExt with subscribers := .fin ⟨3, 0⟩ } _
      (.obj [("type", .str "presence"), ("subscribers", .str "x")])
      (by rfl) (by rfl) (by rfl)).2 (by rfl)⟩

/-! ## Backoff sequence machinery (C3) -/

/-- The delay the claim asserts for the k-th consecutive failure
(0-based): 1000, 2000, 3000, then 5000 forever. -/
def claimedDelay (k : Nat) : Nat :=
  if k = 0 then 1000 else if k = 1 then 2000 else if k = 2 then 3000 else 5000

/-- One failed connect attempt and the subsequent retry: the pending
permission check resolves false (scheduling a retry with the current
backoff delay) and the retry timer then fires (starting the next
attempt). -/
def failCycle (s : Sys) : Sys :=
  step (step s (.resolvePerm 0 .denied)) .fireTimer

theorem backoff_getD_eq_claimedDelay (k : Nat) :
    BACKOFF_MS.getD (min k 3) 0 = claimedDelay k := by
  rcases k with _ | _ | _ | k <;> simp [BACKOFF_MS, claimedDelay]

/-- Effect of one failure cycle on a state that is awaiting exactly one
permission check with no timer and no live socket. -/
theorem failCycle_eq (s : Sys) (a : Attempt)
    (h1 : s.pending = [a]) (h2 : s.ext.shouldReconnect = true)
    (h3 : s.ext.room ≠ "") (h4 : s.ext.reconnectTimer = none)
    (h5 : s.ext.ws = none) :
    failCycle s = { s with
      ext := { s.ext with
        connected := false,
        backoffIndex := min (s.ext.backoffIndex + 1) 3,
        reconnectTimer := none },
      pending := [⟨buildWsUrl s.ext.wsBase s.ext.room⟩],
      delayLog := s.delayLog ++ [BACKOFF_MS.getD (min s.ext.backoffIndex 3) 0] } := by
  obtain ⟨⟨c, room, base, g, cf, sub, dr, ws, sr, rt, bi⟩, pending, sockets, log⟩ := s
  simp only at h1 h2 h3 h4 h5
  subst h1 h2 h4 h5
  simp [failCycle, step, finishOpen, scheduleReconnect, openWsStart, h3, BACKOFF_MS]

theorem min_add_shift (i k : Nat) : min (min (i + 1) 3 + k) 3 = min (i + 1 + k) 3 := by
  omega

/-- Iterating failure cycles from any awaiting state: the logged delays
follow the saturating table read from the current backoff index. -/
theorem failCycle_iter :
    ∀ (N : Nat) (s : Sys) (a : Attempt), s.pending = [a] →
      s.ext.shouldReconnect = true → s.ext.room ≠ "" →
      s.ext.reconnectTimer = none → s.ext.ws = none →
      (failCycle^[N] s).delayLog
        = s.delayLog
          ++ (List.range N).map (fun k => BACKOFF_MS.getD (min (s.ext.backoffIndex + k) 3) 0) := by
  intro N
  induction N with
  | zero => intro s a h1 h2 h3 h4 h5; simp
  | succ n ih =>
    intro s a h1 h2 h3 h4 h5
    have hfc := failCycle_eq s a h1 h2 h3 h4 h5
    have key := ih (failCycle s) ⟨buildWsUrl s.ext.wsBase s.ext.room⟩
      (by simp [hfc]) (by simpa [hfc] using h2) (by simpa [hfc] using h3)
      (by simp [hfc]) (by simpa [hfc] using h5)
    rw [Function.iterate_succ_apply, key, hfc]
    simp only [List.range_succ_eq_map, List.map_cons, List.map_map, Nat.add_zero,
      List.append_assoc, List.singleton_append]
    congr 1
    congr 1
    apply List.map_congr_left
    intro k _
    simp only [Function.comp_apply]
    congr 1
    omega

/-- C3 counterexample.  The claim says every explicit setRoom call resets
the backoff index so that the next failure delay is 1000 ms again.  Here
the first attempt fails (delay 1000 logged, index 1), the retry attempt
gets its permission grant and creates a socket, and setRoom("ST-1") is
then called explicitly — but it is the same-room no-op path, so the index
stays 1, and when the socket fails to complete its handshake the next
scheduled delay is 2000 ms, not 1000 ms. -/
theorem c3_counterexample :
    (runEvents [.setRoom "ST-1", .resolvePerm 0 .denied, .fireTimer,
        .resolvePerm 0 .granted, .setRoom "ST-1"]).ext.backoffIndex = 1
    ∧ (runEvents [.setRoom "ST-1", .resolvePerm 0 .denied, .fireTimer,
        .resolvePerm 0 .granted, .setRoom "ST-1", .wsClose 0]).delayLog = [1000, 2000] := by
  decide

/-- C3 amended: (1) starting from any state that has just begun a connect
attempt with backoff index 0, the delays scheduled for N consecutive
failed attempts without an intervening successful open are exactly
claimedDelay 0, ..., claimedDelay (N-1), i.e. 1000, 2000, 3000, 5000,
5000, ... ms, saturating at the last table entry; (2) a completed open
handshake resets the index to 0; (3) a setRoom call that takes effect (a
non-empty room that differs from the current one, or no live transport
handle) resets the index to 0; (4) a reconnect call made while a room is
set resets the index to 0.  (A same-room setRoom with a live transport is
a no-op and does not reset — see the counterexample.) -/
theorem c3_backoff_sequence :
    (∀ (s : Sys) (a : Attempt) (N : Nat), s.pending = [a] →
      s.ext.shouldReconnect = true → s.ext.room ≠ "" →
      s.ext.reconnectTimer = none → s.ext.ws = none →
      s.ext.backoffIndex = 0 →
      (failCycle^[N] s).delayLog = s.delayLog ++ (List.range N).map claimedDelay)
    ∧ (∀ (s : Sys) (i : Nat) (k : Sock), s.sockets[i]? = some k →
        k.status = .connecting → k.attached = true →
        (step s (.wsOpen i)).ext.backoffIndex = 0)
    ∧ (∀ (s : Sys) (raw : String), normalizeRoom raw ≠ "" →
        (normalizeRoom raw ≠ s.ext.room ∨ s.ext.ws = none) →
        (cmdSetRoom s raw).ext.backoffIndex = 0)
    ∧ (∀ s : Sys, s.ext.room ≠ "" → (cmdReconnect s).ext.backoffIndex = 0) := by
  refine ⟨?_, ?_, ?_, ?_⟩
  · intro s a N h1 h2 h3 h4 h5 h6
    rw [failCycle_iter N s a h1 h2 h3 h4 h5]
    congr 1
    apply List.map_congr_left
    intro k _
    rw [h6, Nat.zero_add, backoff_getD_eq_claimedDelay]
  · intro s i k hk hst hat
    simp [step, hk, hst, hat]
  · intro s raw h1 h2
    obtain ⟨⟨c, room, base, g, cf, sub, dr, ws, sr, rt, bi⟩, pending, sockets, log⟩ := s
    simp only [cmdSetRoom, setRoomInternal] at h2 ⊢
    rw [if_neg h1, if_neg ?hcond]
    case hcond =>
      intro hc
      cases h2 with
      | inl h => exact h hc.1
      | inr h => simp only at h; rw [h] at hc; exact absurd hc.2 (by simp)
    cases ws <;> simp [closeWs, openWsStart, h1]
  · intro s h
    obtain ⟨⟨c, room, base, g, cf, sub, dr, ws, sr, rt, bi⟩, pending, sockets, log⟩ := s
    simp only [cmdReconnect] at h ⊢
    rw [if_neg h]
    cases ws <;> simp [closeWs, clearReconnectTimer, openWsStart, h]

/-- C3 witness: the four parts of the amended claim applied to concrete
states, together with the evaluated delay log for five straight failures:
1000, 2000, 3000, 5000, 5000. -/
theorem c3_backoff_sequence_witness :
    (runEvents [.setRoom "ST-1"]).pending = [⟨buildWsUrl DEFAULT_WS_BASE "ST-1"⟩]
    ∧ (runEvents [.setRoom "ST-1"]).ext.backoffIndex = 0
    ∧ (failCycle^[5] (runEvents [.setRoom "ST-1"])).delayLog
        = (runEvents [.setRoom "ST-1"]).delayLog ++ (List.range 5).map claimedDelay
    ∧ (failCycle^[5] (runEvents [.setRoom "ST-1"])).delayLog = [1000, 2000, 3000, 5000, 5000]
    ∧ (step (runEvents [.setRoom "ST-1", .resolvePerm 0 .granted]) (.wsOpen 0)).ext.backoffIndex = 0
    ∧ (cmdSetRoom (runEvents [.setRoom "ST-1"]) "ST-2").ext.backoffIndex = 0
    ∧ (cmdReconnect (runEvents [.setRoom "ST-1"])).ext.backoffIndex = 0 :=
  ⟨by decide, by decide,
   c3_backoff_sequence.1 _ ⟨buildWsUrl DEFAULT_WS_BASE "ST-1"⟩ 5
     (by decide) (by decide) (by decide) (by decide) (by decide) (by decide),
   by decide,
   c3_backoff_sequence.2.1 _ 0 ⟨buildWsUrl DEFAULT_WS_BASE "ST-1", .connecting, true⟩
     (by decide) (by decide) (by decide),
   c3_backoff_sequence.2.2.1 _ "ST-2" (by decide) (Or.inl (by decide)),
   c3_backoff_sequence.2.2.2 _ (by decide)⟩

/-! ## Decimal value lemmas (C9) -/

theorem pow10_eq_natCast : ∀ n : Nat, pow10 n = ((10 ^ n : ℕ) : ℤ)
  | 0 => rfl
  | n + 1 => by
    rw [pow10, pow10_eq_natCast n, pow_succ]
    push_cast
    ring

theorem pow10_pos (n : Nat) : (0 : ℤ) < pow10 n := by
  rw [pow10_eq_natCast]
  positivity

theorem pow10_q (n : Nat) : ((pow10 n : ℤ) : ℚ) = 10 ^ n := by
  rw [pow10_eq_natCast]
  push_cast
  rfl

theorem pow10_q_ne_zero (n : Nat) : ((pow10 n : ℤ) : ℚ) ≠ 0 := by
  rw [pow10_q]
  positivity

theorem dVal_mkDec : ∀ (e : Nat) (m : Int), dVal (mkDec m e) = (m : ℚ) / ((pow10 e : ℤ) : ℚ)
  | 0, m => by simp [mkDec, dVal, pow10]
  | e + 1, m => by
    by_cases h : m % 10 = 0
    · have hdvd : (10 : ℤ) ∣ m := Int.dvd_of_emod_eq_zero h
      rw [mkDec, if_pos h, dVal_mkDec e (m / 10)]
      obtain ⟨k, rfl⟩ := hdvd
      rw [Int.mul_ediv_cancel_left k (by norm_num)]
      rw [pow10]
      have h1 := pow10_q_ne_zero e
      push_cast
      field_simp
      ring
    · rw [mkDec, if_neg h]
      simp [dVal]

theorem dVal_decDiv100 (d : Dec) : dVal (decDiv100 d) = dVal d / 100 := by
  rw [decDiv100, dVal_mkDec, dVal, pow10_q, pow10_q, pow_add, div_div]
  norm_num

theorem dVal_decMul100 (d : Dec) : dVal (decMul100 d) = dVal d * 100 := by
  rw [decMul100]
  by_cases h : 2 ≤ d.e
  · rw [if_pos h, dVal_mkDec, dVal]
    obtain ⟨k, hk⟩ : ∃ k, d.e = k + 2 := ⟨d.e - 2, by omega⟩
    rw [hk]
    simp only [Nat.add_sub_cancel]
    rw [pow10_q, pow10_q]
    have h1 : (10 : ℚ) ^ (k + 2) = 10 ^ k * 100 := by rw [pow_add]; norm_num
    rw [h1]
    have h2 : (10 : ℚ) ^ k ≠ 0 := by positivity
    field_simp
    ring
  · rw [if_neg h]
    simp only [dVal]
    push_cast [pow10_eq_natCast]
    have h2 : (10 : ℚ) ^ d.e ≠ 0 := by positivity
    field_simp
    rw [mul_assoc, ← pow_add, show 2 - d.e + d.e = 2 by omega]
    norm_num

/-- decRoundHalfUp is exactly the floor of the decimal value plus one
half. -/
theorem decRoundHalfUp_eq_floor (d : Dec) :
    decRoundHalfUp d = ⌊dVal d + 1 / 2⌋ := by
  rw [decRoundHalfUp]
  have hb : (0 : ℤ) ≤ 2 * pow10 d.e := by have := pow10_pos d.e; omega
  rw [Int.fdiv_eq_ediv _ hb]
  have hnat : 2 * pow10 d.e = ((2 * 10 ^ d.e : ℕ) : ℤ) := by
    rw [pow10_eq_natCast]; push_cast; ring
  rw [hnat, ← Rat.floor_intCast_div_natCast]
  congr 1
  rw [dVal]
  push_cast [pow10_q]
  have h2 : (10 : ℚ) ^ d.e ≠ 0 := by positivity
  field_simp
  ring

/-- C9: for every internal confidence value that is finite (every value
the code can store there is), the confidence reporter returns exactly the
value rounded to 2 decimal places — floor (value * 100 + 1/2) / 100, the
round-half-toward-positive-infinity rule of Math.round — and the result
is never negative zero; the reporter is a total function (it cannot block
or fail).  The closed conjunct is the concrete case: internal value
-0.00001 reports as 0, not -0. -/
theorem c9_confidence_rounding :
    (∀ e : ExtState, jsIsFinite e.confidence = true →
      ratValue (getConfidence e) = ((⌊ratValue e.confidence * 100 + 1 / 2⌋ : ℤ) : ℚ) / 100
      ∧ getConfidence e ≠ JsNum.negZero)
    ∧ getConfidence { initExt with confidence := .fin ⟨-1, 5⟩ } = .fin decZero := by
  constructor
  · intro e hf
    cases hc : e.confidence with
    | nan => rw [hc] at hf; exact absurd hf (by simp [jsIsFinite])
    | posInf => rw [hc] at hf; exact absurd hf (by simp [jsIsFinite])
    | negInf => rw [hc] at hf; exact absurd hf (by simp [jsIsFinite])
    | negZero =>
      rw [getConfidence, hc]
      constructor
      · simp only [toFiniteNumberN, jsIsFinite, if_pos, round2, jsMul100, jsRound,
          jsDiv100, ratValue, dVal, decZero]
        norm_num [Int.floor_eq_zero_iff, Set.mem_Ico]
      · simp [toFiniteNumberN, jsIsFinite, round2, jsMul100, jsRound, jsDiv100]
    | fin d =>
      rw [getConfidence, hc]
      have ht : toFiniteNumberN (.fin d) (.fin decZero) = .fin d := by
        simp [toFiniteNumberN, jsIsFinite]
      rw [ht]
      have hr : decRoundHalfUp (decMul100 d) = ⌊dVal d * 100 + 1 / 2⌋ := by
        rw [decRoundHalfUp_eq_floor, dVal_decMul100]
      by_cases hneg : decRoundHalfUp (decMul100 d) = 0 ∧ (decMul100 d).m < 0
      · have hrz : round2 (.fin d) = .fin decZero := by
          rw [round2]
          simp only [jsMul100, jsRound, if_pos hneg, jsDiv100]
          rfl
        rw [hrz]
        refine ⟨?_, by simp⟩
        have h0 : ratValue (JsNum.fin decZero) = 0 := by
          simp [ratValue, dVal, decZero]
        rw [h0, show ratValue (JsNum.fin d) = dVal d from rfl, ← hr, hneg.1]
        norm_num
      · have hrv : round2 (.fin d)
            = .fin (decDiv100 (mkDec (decRoundHalfUp (decMul100 d)) 0)) := by
          rw [round2]
          simp only [jsMul100, jsRound, if_neg hneg, jsDiv100]
          simp
        rw [hrv]
        refine ⟨?_, by simp⟩
        simp only [ratValue]
        rw [dVal_decDiv100, dVal_mkDec, hr]
        norm_num [pow10]
  · decide

/-- C9 witness: the universal part applied at the internal confidence
value -0.00001 (the decimal -1/10^5). -/
theorem c9_confidence_rounding_witness :
    jsIsFinite (ExtState.confidence { initExt with confidence := .fin ⟨-1, 5⟩ }) = true
    ∧ (ratValue (getConfidence { initExt with confidence := .fin ⟨-1, 5⟩ })
        = ((⌊ratValue (ExtState.confidence { initExt with confidence := .fin ⟨-1, 5⟩ }) * 100 + 1 / 2⌋ : ℤ) : ℚ) / 100
      ∧ getConfidence { initExt with confidence := .fin ⟨-1, 5⟩ } ≠ JsNum.negZero) :=
  ⟨by decide, c9_confidence_rounding.1 { initExt with confidence := .fin ⟨-1, 5⟩ } (by decide)⟩
